import Mathlib

/-!
Verification of the slackbot-agent repository (src/bot.py and
src/knowledge_base.py): a shallow embedding of the tokenizer/scorer, the
knowledge-base lookup, the history cache refresh, and the similar-Q&A
retrieval, together with theorems settling the specification claims.

External collaborators (the Slack API calls `conversations_history` /
`conversations_replies`, reached through `fetch_channel_history` and
`fetch_thread_replies`) are modelled as an environment of fallible
functions (`Except Unit`), mirroring that those calls may raise.
-/

namespace Slackbot

/-! ### Data model (src/bot.py message dicts) -/

/-- A Slack message dict as used by bot.py: `ts`, `text`, optional `bot_id`,
optional `subtype`, and `reply_count` (defaulted to 0 by the source's
`msg.get("reply_count", 0)`). -/
structure Message where
  ts : String
  text : String
  bot_id : Option String
  subtype : Option String
  reply_count : Nat
deriving DecidableEq, Repr

/-- A {question, answer, score} dict returned by `find_similar_qa_pairs`. -/
structure QAMatch where
  question : String
  answer : String
  score : Nat
deriving DecidableEq, Repr

/-- Python truthiness of `msg.get("bot_id")`: `None` and `""` are falsy. -/
def truthyId : Option String → Bool
  | none => false
  | some s => !s.isEmpty

/-- bot.py line 259: `msg.get("bot_id") or msg.get("subtype") == "bot_message"`
(the same test is applied to replies at lines 275-276). -/
def isBotMessage (m : Message) : Bool :=
  truthyId m.bot_id || m.subtype == some "bot_message"

/-- A cache entry, bot.py lines 131-135:
`{"messages": [...], "threads": {ts: [...]}, "last_refreshed": now}`.
The threads dict is modelled as a lookup function (the source only ever
reads it via `.get`); `last_refreshed` is an abstract clock value. -/
structure CacheEntry where
  messages : List Message
  threads : String → Option (List Message)
  last_refreshed : Nat

/-- The module-level `_history_cache` dict, bot.py line 106. -/
abbrev Cache := String → Option CacheEntry

/-- The external Slack API surface used by the cache and the retriever:
`fetch_channel_history` (lines 190-216) and `fetch_thread_replies`
(lines 219-226).  Both are network calls that can raise. -/
structure Env where
  fetch_channel_history : String → Except Unit (List Message)
  fetch_thread_replies : String → String → Except Unit (List Message)

/-! ### Tokenizer / scorer (bot.py lines 170-187; knowledge_base.py has an
identical copy at lines 166-178) -/

/-- Character class of the regex `[a-z0-9]+`. -/
def isTokenChar (c : Char) : Bool :=
  ('a' ≤ c && c ≤ 'z') || ('0' ≤ c && c ≤ '9')

/-- `re.findall(r"[a-z0-9]+", s)`: the maximal runs of token characters,
in order.  `acc` holds the current run, reversed. -/
def tokenRuns (acc : List Char) : List Char → List String
  | [] => if acc.isEmpty then [] else [String.mk acc.reverse]
  | c :: cs =>
    if isTokenChar c then tokenRuns (c :: acc) cs
    else if acc.isEmpty then tokenRuns [] cs
    else String.mk acc.reverse :: tokenRuns [] cs

/-- The stopword set of `_tokenise`, bot.py lines 172-180. -/
def STOPWORDS : List String :=
  ["a", "an", "the", "is", "are", "was", "were", "be", "been", "being",
   "have", "has", "had", "do", "does", "did", "will", "would", "shall",
   "should", "may", "might", "must", "can", "could", "i", "me", "my",
   "we", "our", "you", "your", "he", "she", "it", "they", "them", "and",
   "or", "but", "in", "on", "at", "to", "for", "of", "with", "by",
   "from", "as", "into", "about", "that", "this", "what", "which", "who",
   "how", "when", "where", "why", "not", "no", "so", "if", "then"]

/-- bot.py `_tokenise` (lines 170-182):
`set(re.findall(r"[a-z0-9]+", text.lower())) - stopwords`. -/
def _tokenise (text : String) : Finset String :=
  (tokenRuns [] (text.toList.map Char.toLower)).toFinset \ STOPWORDS.toFinset

/-- bot.py `_similarity` (lines 185-187): size of the token intersection. -/
def _similarity (text_a text_b : String) : Nat :=
  ((_tokenise text_a) ∩ (_tokenise text_b)).card

/-! ### Similar-Q&A retrieval (bot.py `find_similar_qa_pairs`, lines 229-290) -/

/-- The sort order of `candidates.sort(key=lambda c: c["score"], reverse=True)`:
descending by the key `f`.  Python's sort is stable; so is the stable
`List.insertionSort` below applied with this relation. -/
def keyDesc {α : Type} (f : α → Nat) : α → α → Prop := fun a b => f b ≤ f a

instance {α : Type} (f : α → Nat) : DecidableRel (keyDesc f) :=
  fun a b => Nat.decLe (f b) (f a)

instance {α : Type} (f : α → Nat) : IsTotal α (keyDesc f) :=
  ⟨fun a b => Nat.le_total (f b) (f a)⟩

instance {α : Type} (f : α → Nat) : IsTrans α (keyDesc f) :=
  ⟨fun _ _ _ h1 h2 => Nat.le_trans h2 h1⟩

/-- bot.py line 245-253: with a cache hit, `history = cache_entry["messages"]`;
on a miss, `history = fetch_channel_history(channel_id)` (live fallback,
may raise). -/
def resolved_history (env : Env) (cache : Cache) (channel_id : String) :
    Except Unit (List Message) :=
  match cache channel_id with
  | some entry => .ok entry.messages
  | none => env.fetch_channel_history channel_id

/-- bot.py line 245-253: with a cache hit,
`cached_threads = cache_entry["threads"]`; on a miss, `cached_threads = {}`. -/
def resolved_threads (cache : Cache) (channel_id : String) :
    String → Option (List Message) :=
  match cache channel_id with
  | some entry => entry.threads
  | none => fun _ => none

/-- bot.py line 271:
`replies = cached_threads.get(thread_ts) or fetch_thread_replies(channel_id, thread_ts)`.
Python `or` falls through to the live fetch when the cached value is `None`
*or* an empty (falsy) list. -/
def resolveReplies (env : Env) (channel_id : String)
    (cached_threads : String → Option (List Message)) (thread_ts : String) :
    Except Unit (List Message) :=
  match cached_threads thread_ts with
  | some l => if l.isEmpty then env.fetch_thread_replies channel_id thread_ts else .ok l
  | none => env.fetch_thread_replies channel_id thread_ts

/-- bot.py lines 272-277: replies that are neither the starting message
itself (by `ts`) nor bot-authored. -/
def human_replies (msg : Message) (replies : List Message) : List Message :=
  replies.filter fun r =>
    r.ts != msg.ts && !truthyId r.bot_id && !(r.subtype == some "bot_message")

/-- The candidate-collection loop of `find_similar_qa_pairs`,
bot.py lines 255-286, in history order.  A thread-fetch exception inside
the loop propagates (the source has no try/except here). -/
def collect_candidates (env : Env) (channel_id question : String)
    (min_overlap : Nat) (cached_threads : String → Option (List Message)) :
    List Message → Except Unit (List QAMatch)
  | [] => .ok []
  | msg :: rest =>
    if isBotMessage msg then
      collect_candidates env channel_id question min_overlap cached_threads rest
    else if msg.reply_count == 0 then
      collect_candidates env channel_id question min_overlap cached_threads rest
    else
      if _similarity question msg.text < min_overlap then
        collect_candidates env channel_id question min_overlap cached_threads rest
      else
        match resolveReplies env channel_id cached_threads msg.ts with
        | .error e => .error e
        | .ok replies =>
          match human_replies msg replies with
          | [] => collect_candidates env channel_id question min_overlap cached_threads rest
          | r :: _ =>
            match collect_candidates env channel_id question min_overlap cached_threads rest with
            | .error e => .error e
            | .ok cands => .ok (⟨msg.text, r.text, _similarity question msg.text⟩ :: cands)

/-- bot.py `find_similar_qa_pairs` (lines 229-290): resolve the history and
cached threads, collect candidates, stable-sort descending by score, and
truncate to `top_n`. -/
def find_similar_qa_pairs (env : Env) (cache : Cache)
    (channel_id question : String) (top_n min_overlap : Nat) :
    Except Unit (List QAMatch) :=
  match resolved_history env cache channel_id with
  | .error e => .error e
  | .ok history =>
    match collect_candidates env channel_id question min_overlap
        (resolved_threads cache channel_id) history with
    | .error e => .error e
    | .ok candidates =>
      .ok ((candidates.insertionSort (keyDesc QAMatch.score)).take top_n)

/-- `find_similar_qa_pairs` with the module cache state threaded explicitly:
the source only ever *reads* `_history_cache` (line 243,
`cache_entry = _history_cache.get(channel_id)`) and never assigns into it,
so the state it returns is the state it was given. -/
def find_similar_qa_pairsS (env : Env) (cache : Cache)
    (channel_id question : String) (top_n min_overlap : Nat) :
    Except Unit (List QAMatch) × Cache :=
  let cache_entry := cache channel_id
  match cache_entry with
  | some entry =>
    (match collect_candidates env channel_id question min_overlap
        entry.threads entry.messages with
     | .error e => .error e
     | .ok candidates =>
       .ok ((candidates.insertionSort (keyDesc QAMatch.score)).take top_n),
     cache)
  | none =>
    (match env.fetch_channel_history channel_id with
     | .error e => .error e
     | .ok history =>
       match collect_candidates env channel_id question min_overlap
           (fun _ => none) history with
       | .error e => .error e
       | .ok candidates =>
         .ok ((candidates.insertionSort (keyDesc QAMatch.score)).take top_n),
     cache)

/-! ### History cache refresh (bot.py lines 109-150) -/

/-- One iteration of the thread-collection loop of
`_refresh_single_channel`, bot.py lines 115-125: for a message with
`reply_count > 0`, fetch its thread and store it under the message's
`ts`; a failed thread fetch is caught, logged and skipped. -/
def thread_step (env : Env) (channel_id : String)
    (threads : String → Option (List Message)) (msg : Message) :
    String → Option (List Message) :=
  if 0 < msg.reply_count then
    match env.fetch_thread_replies channel_id msg.ts with
    | .ok replies => fun t => if t = msg.ts then some replies else threads t
    | .error _ => threads
  else threads

/-- The `threads` dict built by `_refresh_single_channel` (bot.py lines
114-125), as a lookup function built by successive updates. -/
def build_threads (env : Env) (channel_id : String) (messages : List Message) :
    String → Option (List Message) :=
  messages.foldl (thread_step env channel_id) (fun _ => none)

/-- bot.py `_refresh_single_channel` (lines 109-135): fetch the whole
channel history (uncaught on failure), build the threads dict, and return
a complete new cache entry stamped with the current time. -/
def _refresh_single_channel (env : Env) (channel_id : String) (now : Nat) :
    Except Unit CacheEntry :=
  match env.fetch_channel_history channel_id with
  | .error e => .error e
  | .ok messages => .ok ⟨messages, build_threads env channel_id messages, now⟩

/-- One iteration of `refresh_cache` (bot.py lines 144-150): refresh one
channel and store the complete new entry under its id; a failure is
caught and logged, leaving the cache untouched for that channel. -/
def refresh_step (env : Env) (now : Nat) (c : Cache) (channel_id : String) : Cache :=
  match _refresh_single_channel env channel_id now with
  | .ok entry => fun x => if x = channel_id then some entry else c x
  | .error _ => c

/-- bot.py `refresh_cache` (lines 138-150): for each deduplicated
history-source channel, refresh it; a per-channel failure is caught and
logged, leaving that channel's previous entry in place. -/
def refresh_cache (env : Env) (source_channels : List String) (now : Nat)
    (cache : Cache) : Cache :=
  source_channels.foldl (refresh_step env now) cache

/-- A channel configuration record (bot.py `CHANNEL_CONFIG`, lines 71-99). -/
structure ChannelConfig where
  channel_type : String
  history_source : String
  system_prompt : String

/-- bot.py lines 141-143: the deduplicated set of history-source channels
(`{config["history_source"] for config in CHANNEL_CONFIG.values()}`). -/
def source_channels_of (configs : List ChannelConfig) : List String :=
  (configs.map (·.history_source)).dedup

/-- The sequence of atomic cache-store operations a call to `refresh_cache`
performs, in order.  The source's only write to `_history_cache` is the
single dict assignment at line 146, whose right-hand side is a completely
built entry, so each operation stores one whole `CacheEntry`. -/
def refresh_stores (env : Env) (source_channels : List String) (now : Nat) :
    List (String × CacheEntry) :=
  source_channels.filterMap fun channel_id =>
    match _refresh_single_channel env channel_id now with
    | .ok entry => some (channel_id, entry)
    | .error _ => none

/-- One atomic store operation on the cache (the dict assignment
`_history_cache[channel_id] = ...`, bot.py line 146). -/
def store_step (c : Cache) (op : String × CacheEntry) : Cache :=
  fun x => if x = op.1 then some op.2 else c x

/-- Apply a prefix of the store operations to a cache: the cache state a
concurrent reader observes part-way through a refresh. -/
def apply_stores (cache : Cache) (ops : List (String × CacheEntry)) : Cache :=
  ops.foldl store_step cache

/-! ### Knowledge base (src/knowledge_base.py) -/

/-- The `mileage_rates` body, knowledge_base.py lines 35-40. -/
def kb_mileage_rates_body : String :=
  "UK private car: 45p/mile for the first 10,000 miles, 25p/mile thereafter. " ++
  "Motorcycles: 24p/mile. Cycling: 20p/mile. " ++
  "US private car/van/pickup: 65.5 cents per mile (from 1 Jan 2023). " ++
  "These rates are set by HMRC (UK) / IRS (US), not Kaluza."

/-- The `car_hire` body, knowledge_base.py lines 41-44. -/
def kb_car_hire_body : String :=
  "Car hire is allowed for journeys over 100 miles and if more than one " ++
  "employee is travelling. Parking costs on business travel can be claimed."

/-- The `finance` topics, knowledge_base.py lines 15-60, in insertion order. -/
def kb_finance : List (String × String) :=
  [("expense_policy",
    "Expenses should be as economical and efficient as possible. " ++
    "Typically you purchase items yourself and expense them back with the receipt. " ++
    "If you\x27re unsure whether a purchase would be covered, ask your People Leader " ++
    "or Finance Partner. People Leaders should ensure expense claims have receipts " ++
    "attached and approve them in a timely manner — typically within 2 weeks."),
   ("claiming_expenses",
    "Enter your expenses into Navan with a full receipt unless absolutely not possible. " ++
    "Guides are available on Navan to help you. " ++
    "If you need help, message your Finance Partner."),
   ("entertainment",
    "Lunch or entertaining should typically only be expensed if it\x27s a client event. " ++
    "Alcohol may be part of these expenses but please use your best judgement. " ++
    "Non-reimbursable items include: laundry/dry-cleaning, toiletries, mini-bar, " ++
    "newspapers, movies/videos, parking fines or other fines, damage to personal " ++
    "vehicles, loss/theft of goods, and any personal elements of expenditure."),
   ("mileage_rates", kb_mileage_rates_body),
   ("car_hire", kb_car_hire_body),
   ("taxis",
    "Always try to use public transport first. Taxi fares may only be claimed " ++
    "where no suitable public transport is available, when travelling in an unsafe " ++
    "area, when public transport is infrequent, or where there is a business cost " ++
    "saving. You\x27ll need a receipt."),
   ("interview_expenses",
    "Candidates travelling over 2 hours to a Kaluza interview may claim up to " ++
    "£100 in expenses with receipts. Candidates provide bank details to the " ++
    "Talent Acquisition team who arrange payment via Finance.")]

/-- The `navan` topics, knowledge_base.py lines 65-162, in insertion order. -/
def kb_navan : List (String × String) :=
  [("booking_process",
    "Use the Navan booking platform for flights and accommodation. " ++
    "For rail travel, use Trainline or another provider for split-ticketing prices " ++
    "(this will move to Navan once available). " ++
    "When booking taxis, use a reputable firm. " ++
    "For in-country travel, check with your People Leader then book. " ++
    "For international travel, get approval from your HoD/Director first."),
   ("flight_booking",
    "Review prices in Navan and compare with Skyscanner. If prices are similar " ++
    "and flight times align, book through Navan. " ++
    "If variance is high (>£50 per flight) or right times aren\x27t available, " ++
    "contact Navan directly via chat or telephone for concierge service."),
   ("flight_class",
    "Class of travel policy:\n" ++
    "- Up to 5 hours: Economy for all employees.\n" ++
    "- Up to 12 hours: Economy below Director level; Premium Economy for Directors+.\n" ++
    "- Over 12 hours: Premium Economy below VP; Business Class for VPs and above.\n" ++
    "Upgrades at no cost to the company are fine. Self-funded upgrades are allowed. " ++
    "Only excess baggage for Kaluza business items is refunded."),
   ("flight_rest_policy",
    "Post-flight rest expectations:\n" ++
    "- Up to 5 hours: meetings within 1–2 hours of landing.\n" ++
    "- Up to 12 hours (overnight / up to 3 time zones): 4 hours rest before meetings.\n" ++
    "- Over 12 hours: no meetings until at least 8 hours after landing; " ++
    "crossing 4+ time zones: 24 hours rest.\n\n" ++
    "Time-off-in-lieu for non-working-hours travel (return trip):\n" ++
    "- Up to 5 hours: take back time as TOIL.\n" ++
    "- Up to 12 hours: one day off in lieu.\n" ++
    "- Over 12 hours: two days off in lieu."),
   ("accommodation",
    "Book overnight stays through Navan. Choose a moderate business-class hotel " ++
    "near your meeting location at the cheapest available rate.\n" ++
    "Rate guidelines: up to £150/night inner city (e.g. Bristol), " ++
    "up to £200/night London.\n" ++
    "Meal guideline while staying overnight: max £25/€30/$30 per day per person.\n\n" ++
    "Corporate rate hotels are available in London (Hoxton Shepherds Bush £180, " ++
    "DoubleTree Hyde Park £195 inc breakfast, Ruby Zoe 12% off), " ++
    "Edinburgh (Yotel 20% off, Mercure Princes St £110 inc breakfast), " ++
    "Bristol (Leonardo £100–£110, DoubleTree £135–£150 inc breakfast), " ++
    "Melbourne (Savoy $220, Next Hotel 15% off, Movenpick $270 inc breakfast), " ++
    "Washington DC (Canopy by Hilton 12% off), " ++
    "and Lisbon (MAMA Lisboa seasonal rates from €95)."),
   ("travel_insurance",
    "Kaluza holds a group Personal Accident and Travel (PAT) insurance policy " ++
    "through AON UK Limited under Energy Transition Holdings Ltd (Ovo Group). " ++
    "Insurers: Chubb (45%), AIG (45%), Zurich (10%). " ++
    "All employees travelling abroad for short-term work are covered. " ++
    "No exclusions for pre-existing conditions or allergies. " ++
    "Emergency line: +44 (0)207 173 7797. " ++
    "Policy number: P25PATPTP04121. " ++
    "Claims email: aum.claims@aon.co.uk. " ++
    "For pre-existing conditions, get written email confirmation from AON before travel."),
   ("rail",
    "Always book standard class, as far ahead as possible for cheapest fares. " ++
    "You can claim the annual cost of a railcard if you regularly expense train " ++
    "travel (not commuting to your core office). " ++
    "OYSTER/Contactless: attach a breakdown of all journeys to your expense claim."),
   ("overseas_travel",
    "International travel must be approved by your HoD/Director. " ++
    "Visa costs, travel insurance, foreign currency exchange charges, and GPS hire " ++
    "with rental cars can be claimed. " ++
    "Ensure you have the right to work in the destination country (check Working " ++
    "Abroad Policy) and all necessary documentation (e.g. VISAs) before booking. " ++
    "Contact your People Partner with questions."),
   ("sustainability",
    "Kaluza is committed to reducing the environmental impact of business travel. " ++
    "Where possible, replace face-to-face meetings with video conferencing. " ++
    "If travel is necessary, combine meetings into one trip and use the most " ++
    "sustainable transport feasible."),
   ("duty_of_care",
    "Always inform your People Leader (or a team member if they\x27re away) of your " ++
    "overnight location. Schedule travel times into your calendar and share with " ++
    "your People Leader. Have emergency contacts saved in your phone. " ++
    "In an emergency, contact local emergency services first, then notify your " ++
    "People Leader and People Partner."),
   ("medical_travel",
    "Employees with health issues should consult their healthcare provider before " ++
    "long-haul travel (especially flights over 5 hours). A doctor\x27s note can be " ++
    "provided to your People Partner for specific travel accommodations. " ++
    "Notify your People Leader and People Partner of health conditions early. " ++
    "Alternative travel dates may be requested and approved where health conditions " ++
    "require extra recovery time.")]

/-- knowledge_base.py `KNOWLEDGE_BASE` (lines 11-163), as an ordered
association list domain → topics. -/
def KNOWLEDGE_BASE : List (String × List (String × String)) :=
  [("finance", kb_finance), ("navan", kb_navan)]

/-- The per-topic overlap of knowledge_base.py lines 194-195:
`len(q_tokens & (tokenise(topic) | tokenise(content)))`. -/
def kb_q_overlap (q_tokens : Finset String) (topic content : String) : Nat :=
  (q_tokens ∩ (_tokenise topic ∪ _tokenise content)).card

/-- The match-collection loop of `get_relevant_knowledge`, knowledge_base.py
lines 193-197: topics with positive overlap, as `(overlap, topic, content)`
triples in insertion order. -/
def kb_matches (q_tokens : Finset String) (topics : List (String × String)) :
    List (Nat × String × String) :=
  topics.filterMap fun tc =>
    let overlap := kb_q_overlap q_tokens tc.1 tc.2
    if 0 < overlap then some (overlap, tc.1, tc.2) else none

/-- knowledge_base.py `get_relevant_knowledge` (lines 181-206): empty text
for an unknown domain or when no topic overlaps; otherwise the matching
topics stable-sorted descending by overlap, each rendered as
`### topic\ncontent` and joined with blank lines. -/
def get_relevant_knowledge (channel_type question : String) : String :=
  let topics := (KNOWLEDGE_BASE.lookup channel_type).getD []
  if topics.isEmpty then ""
  else
    let q_tokens := _tokenise question
    let matched := kb_matches q_tokens topics
    let sorted := matched.insertionSort (keyDesc fun m => m.1)
    if matched.isEmpty then ""
    else String.intercalate "\n\n"
      (sorted.map fun m => "### " ++ m.2.1 ++ "\n" ++ m.2.2)

/-! ### General helper instances and lemmas -/

instance {ε α : Type} [DecidableEq ε] [DecidableEq α] : DecidableEq (Except ε α) :=
  fun a b =>
    match a, b with
    | .ok x, .ok y => decidable_of_iff (x = y) (by simp)
    | .error x, .error y => decidable_of_iff (x = y) (by simp)
    | .ok _, .error _ => isFalse (by simp)
    | .error _, .ok _ => isFalse (by simp)

end Slackbot

namespace Slackbot

/-! ### Claim C7: the tokenizer/scorer -/

/-- C7: `tokenize("The Quick, Quick Fox!")` is exactly {"quick", "fox"}
(lowercased, punctuation-separated, stopwords removed, duplicates
collapsed); tokenizing the empty string gives the empty set, hence the
overlap of the empty string with any text is zero; and overlap is
symmetric. -/
theorem claim_C7 :
    _tokenise "The Quick, Quick Fox!" = ({"quick", "fox"} : Finset String) ∧
    _tokenise "" = (∅ : Finset String) ∧
    (∀ t : String, _similarity "" t = 0) ∧
    (∀ a b : String, _similarity a b = _similarity b a) := by
  refine ⟨by decide, by decide, ?_, ?_⟩
  · intro t
    have h : _tokenise "" = (∅ : Finset String) := by decide
    simp [_similarity, h]
  · intro a b
    simp [_similarity, Finset.inter_comm]

/-! ### Claim C10: empty cached thread lists are never used as replies -/

/-- C10: in `find_similar_qa_pairs` the reply source for a candidate is
`cached_threads.get(thread_ts) or fetch_thread_replies(...)`: a cached
*empty* list is falsy, so a live fetch is performed both when the key is
absent and when the cached list is empty, and a non-empty cached list is
used as is.  With a present cache entry the cached-threads mapping passed
in is exactly the entry's `threads` field. -/
theorem claim_C10 : ∀ (env : Env) (channel_id : String)
    (cached_threads : String → Option (List Message)) (thread_ts : String),
    (cached_threads thread_ts = some [] →
      resolveReplies env channel_id cached_threads thread_ts =
        env.fetch_thread_replies channel_id thread_ts) ∧
    (∀ l, cached_threads thread_ts = some l → l ≠ [] →
      resolveReplies env channel_id cached_threads thread_ts = .ok l) ∧
    (cached_threads thread_ts = none →
      resolveReplies env channel_id cached_threads thread_ts =
        env.fetch_thread_replies channel_id thread_ts) ∧
    (∀ (cache : Cache) (entry : CacheEntry), cache channel_id = some entry →
      resolved_threads cache channel_id = entry.threads) := by
  intro env channel_id cached_threads thread_ts
  refine ⟨?_, ?_, ?_, ?_⟩
  · intro h; simp [resolveReplies, h]
  · intro l h hne
    cases l with
    | nil => exact absurd rfl hne
    | cons x xs => simp [resolveReplies, h]
  · intro h; simp [resolveReplies, h]
  · intro cache entry h; simp [resolved_threads, h]

/-! ### Stability of the descending stable sort

Python's `list.sort` is stable; the embedding uses the stable
`List.insertionSort`.  These lemmas show that for each score `s` the
elements of score `s` keep their relative (insertion) order through the
sort. -/

theorem filter_orderedInsert_key {α : Type} (f : α → Nat) (s : Nat) (a : α) :
    ∀ l : List α,
      (l.orderedInsert (keyDesc f) a).filter (fun x => f x == s) =
        if f a == s then a :: l.filter (fun x => f x == s)
        else l.filter (fun x => f x == s)
  | [] => by
    by_cases has : f a = s <;> simp [List.orderedInsert, List.filter_cons, has]
  | b :: l => by
    by_cases hab : keyDesc f a b
    · rw [List.orderedInsert, if_pos hab]
      by_cases has : f a = s <;> by_cases hbs : f b = s <;>
        simp [List.filter_cons, has, hbs]
    · rw [List.orderedInsert, if_neg hab]
      have hlt : f a < f b := Nat.lt_of_not_le hab
      by_cases has : f a = s <;> by_cases hbs : f b = s <;>
        simp [List.filter_cons, has, hbs, filter_orderedInsert_key f s a l] <;> omega

theorem filter_insertionSort_key {α : Type} (f : α → Nat) (s : Nat) :
    ∀ l : List α,
      (l.insertionSort (keyDesc f)).filter (fun x => f x == s) =
        l.filter (fun x => f x == s)
  | [] => rfl
  | b :: l => by
    rw [List.insertionSort, filter_orderedInsert_key]
    by_cases hbs : f b = s <;>
      simp [List.filter_cons, hbs, filter_insertionSort_key f s l]

/-! ### Claim C9: the retriever never writes to the history cache -/

/-- C9: `find_similar_qa_pairs` only reads the module cache: threading the
cache state through the call (`find_similar_qa_pairsS`) returns it
pointwise unchanged, the returned matches agree with the pure function,
and in particular after a cache-miss call the entry for that channel is
still absent. -/
theorem claim_C9 : ∀ (env : Env) (cache : Cache) (channel_id question : String)
    (top_n min_overlap : Nat),
    (∀ ch', (find_similar_qa_pairsS env cache channel_id question top_n min_overlap).2 ch' =
      cache ch') ∧
    (find_similar_qa_pairsS env cache channel_id question top_n min_overlap).1 =
      find_similar_qa_pairs env cache channel_id question top_n min_overlap ∧
    (cache channel_id = none →
      (find_similar_qa_pairsS env cache channel_id question top_n min_overlap).2 channel_id =
        none) := by
  intro env cache channel_id question top_n min_overlap
  have h2 : (find_similar_qa_pairsS env cache channel_id question top_n min_overlap).2 =
      cache := by
    unfold find_similar_qa_pairsS
    cases cache channel_id <;> rfl
  refine ⟨fun ch' => by rw [h2], ?_, fun h => by rw [h2, h]⟩
  unfold find_similar_qa_pairsS find_similar_qa_pairs resolved_history resolved_threads
  cases hc : cache channel_id <;> simp


/-! ### Characterisation of `find_similar_qa_pairs` results -/


theorem find_similar_spec {env : Env} {cache : Cache} {channel_id question : String}
    {top_n min_overlap : Nat} {out : List QAMatch}
    (h : find_similar_qa_pairs env cache channel_id question top_n min_overlap = .ok out) :
    ∃ history candidates,
      resolved_history env cache channel_id = .ok history ∧
      collect_candidates env channel_id question min_overlap
        (resolved_threads cache channel_id) history = .ok candidates ∧
      out = (candidates.insertionSort (keyDesc QAMatch.score)).take top_n := by
  unfold find_similar_qa_pairs at h
  cases h1 : resolved_history env cache channel_id with
  | error e => rw [h1] at h; simp at h
  | ok history =>
    rw [h1] at h; dsimp only at h
    cases h2 : collect_candidates env channel_id question min_overlap
        (resolved_threads cache channel_id) history with
    | error e => rw [h2] at h; simp at h
    | ok candidates =>
      rw [h2] at h; dsimp only at h
      refine ⟨history, candidates, rfl, h2, ?_⟩
      injection h with h
      exact h.symm

theorem collect_sound {env : Env} {channel_id question : String} {min_overlap : Nat}
    {cached_threads : String → Option (List Message)} :
    ∀ {msgs : List Message} {cands : List QAMatch},
      collect_candidates env channel_id question min_overlap cached_threads msgs = .ok cands →
      ∀ qa ∈ cands, ∃ msg, msg ∈ msgs ∧ isBotMessage msg = false ∧
        0 < msg.reply_count ∧ min_overlap ≤ _similarity question msg.text ∧
        qa.question = msg.text ∧ qa.score = _similarity question msg.text ∧
        ∃ replies r rest,
          resolveReplies env channel_id cached_threads msg.ts = .ok replies ∧
          human_replies msg replies = r :: rest ∧ qa.answer = r.text := by
  intro msgs
  induction msgs with
  | nil =>
    intro cands h qa hqa
    rw [collect_candidates] at h
    injection h with h
    rw [← h] at hqa
    simp at hqa
  | cons msg0 tl ih =>
    intro cands h qa hqa
    rw [collect_candidates] at h
    by_cases hb0 : isBotMessage msg0
    · rw [if_pos hb0] at h
      obtain ⟨m, hm, hr⟩ := ih h qa hqa
      exact ⟨m, List.mem_cons_of_mem _ hm, hr⟩
    · rw [if_neg hb0] at h
      by_cases hrc0 : (msg0.reply_count == 0) = true
      · rw [if_pos hrc0] at h
        obtain ⟨m, hm, hr⟩ := ih h qa hqa
        exact ⟨m, List.mem_cons_of_mem _ hm, hr⟩
      · rw [if_neg hrc0] at h
        by_cases hsc0 : _similarity question msg0.text < min_overlap
        · rw [if_pos hsc0] at h
          obtain ⟨m, hm, hr⟩ := ih h qa hqa
          exact ⟨m, List.mem_cons_of_mem _ hm, hr⟩
        · rw [if_neg hsc0] at h
          cases hres : resolveReplies env channel_id cached_threads msg0.ts with
          | error e => rw [hres] at h; simp at h
          | ok replies =>
            rw [hres] at h; dsimp only at h
            cases hhr : human_replies msg0 replies with
            | nil =>
              rw [hhr] at h; dsimp only at h
              obtain ⟨m, hm, hr⟩ := ih h qa hqa
              exact ⟨m, List.mem_cons_of_mem _ hm, hr⟩
            | cons r rs =>
              rw [hhr] at h; dsimp only at h
              cases hrec : collect_candidates env channel_id question min_overlap
                  cached_threads tl with
              | error e => rw [hrec] at h; simp at h
              | ok cands' =>
                rw [hrec] at h; dsimp only at h
                injection h with hc
                rw [← hc] at hqa
                rcases List.mem_cons.mp hqa with hqa1 | hqa2
                · subst hqa1
                  have hb0' : isBotMessage msg0 = false := by
                    cases hb : isBotMessage msg0
                    · rfl
                    · exact absurd hb hb0
                  refine ⟨msg0, List.mem_cons_self _ _, hb0', ?_,
                    Nat.le_of_not_lt hsc0, rfl, rfl,
                    replies, r, rs, hres, hhr, rfl⟩
                  have : msg0.reply_count ≠ 0 := by simpa using hrc0
                  omega
                · obtain ⟨m, hm, hr⟩ := ih hrec qa hqa2
                  exact ⟨m, List.mem_cons_of_mem _ hm, hr⟩

theorem collect_complete {env : Env} {channel_id question : String} {min_overlap : Nat}
    {cached_threads : String → Option (List Message)} :
    ∀ {msgs : List Message} {cands : List QAMatch},
      collect_candidates env channel_id question min_overlap cached_threads msgs = .ok cands →
      ∀ m ∈ msgs, isBotMessage m = false → 0 < m.reply_count →
      min_overlap ≤ _similarity question m.text →
      ∀ replies r hr_rest,
        resolveReplies env channel_id cached_threads m.ts = .ok replies →
        human_replies m replies = r :: hr_rest →
        (⟨m.text, r.text, _similarity question m.text⟩ : QAMatch) ∈ cands := by
  intro msgs
  induction msgs with
  | nil => intro cands _ m hm; simp at hm
  | cons msg0 tl ih =>
    intro cands h m hm hbot hrc hsim replies r hr_rest hres hhr
    rw [collect_candidates] at h
    rcases List.mem_cons.mp hm with rfl | hm'
    · rw [if_neg (by simp [hbot])] at h
      rw [if_neg (by simp; omega)] at h
      rw [if_neg (Nat.not_lt.mpr hsim)] at h
      rw [hres] at h; dsimp only at h
      rw [hhr] at h; dsimp only at h
      cases hrec : collect_candidates env channel_id question min_overlap cached_threads tl with
      | error e => rw [hrec] at h; simp at h
      | ok cands' =>
        rw [hrec] at h; dsimp only at h
        injection h with hc
        rw [← hc]
        exact List.mem_cons_self _ _
    · by_cases hb0 : isBotMessage msg0
      · rw [if_pos hb0] at h
        exact ih h m hm' hbot hrc hsim replies r hr_rest hres hhr
      · rw [if_neg hb0] at h
        by_cases hrc0 : (msg0.reply_count == 0) = true
        · rw [if_pos hrc0] at h
          exact ih h m hm' hbot hrc hsim replies r hr_rest hres hhr
        · rw [if_neg hrc0] at h
          by_cases hsc0 : _similarity question msg0.text < min_overlap
          · rw [if_pos hsc0] at h
            exact ih h m hm' hbot hrc hsim replies r hr_rest hres hhr
          · rw [if_neg hsc0] at h
            cases hres0 : resolveReplies env channel_id cached_threads msg0.ts with
            | error e => rw [hres0] at h; simp at h
            | ok replies0 =>
              rw [hres0] at h; dsimp only at h
              cases hhr0 : human_replies msg0 replies0 with
              | nil =>
                rw [hhr0] at h; dsimp only at h
                exact ih h m hm' hbot hrc hsim replies r hr_rest hres hhr
              | cons r0 rs0 =>
                rw [hhr0] at h; dsimp only at h
                cases hrec : collect_candidates env channel_id question min_overlap
                    cached_threads tl with
                | error e => rw [hrec] at h; simp at h
                | ok cands' =>
                  rw [hrec] at h; dsimp only at h
                  injection h with hc
                  rw [← hc]
                  exact List.mem_cons_of_mem _
                    (ih hrec m hm' hbot hrc hsim replies r hr_rest hres hhr)



/-! ### Claims C2, C3, C4: the retrieval threshold, ordering, and sources -/

/-- C2: a candidate message whose keyword overlap with the question is
`min_overlap - 1` never supplies any entry of the result (stated for
`1 ≤ min_overlap`, where Nat subtraction agrees with integer subtraction;
for `min_overlap = 0` an overlap of `-1` is impossible), while a candidate
whose overlap is exactly `min_overlap` is eligible: provided it is
non-bot, started a thread, and its resolved replies contain a human
reply, its Q/A pair is in the candidate list the function builds before
sorting and truncating to `top_n`. -/
theorem claim_C2 : ∀ (env : Env) (cache : Cache) (channel_id question : String)
    (top_n min_overlap : Nat) (msg : Message) (out : List QAMatch),
    find_similar_qa_pairs env cache channel_id question top_n min_overlap = .ok out →
    (1 ≤ min_overlap → _similarity question msg.text = min_overlap - 1 →
      ∀ qa ∈ out, qa.question ≠ msg.text) ∧
    (∀ history candidates,
      resolved_history env cache channel_id = .ok history →
      collect_candidates env channel_id question min_overlap
        (resolved_threads cache channel_id) history = .ok candidates →
      msg ∈ history → isBotMessage msg = false → 0 < msg.reply_count →
      _similarity question msg.text = min_overlap →
      ∀ replies r hr_rest,
        resolveReplies env channel_id (resolved_threads cache channel_id) msg.ts =
          .ok replies →
        human_replies msg replies = r :: hr_rest →
        (⟨msg.text, r.text, min_overlap⟩ : QAMatch) ∈ candidates) := by
  intro env cache channel_id question top_n min_overlap msg out hout
  constructor
  · intro hmo hsim qa hqa hqeq
    obtain ⟨history, candidates, h1, h2, h3⟩ := find_similar_spec hout
    subst h3
    have hqa' : qa ∈ candidates :=
      (List.mem_insertionSort _).mp (List.mem_of_mem_take hqa)
    obtain ⟨m, hm, hbot, hrc, hle, hq, hs, _⟩ := collect_sound h2 qa hqa'
    have htext : m.text = msg.text := by rw [← hq, hqeq]
    rw [htext, hsim] at hle
    omega
  · intro history candidates h1 h2 hmem hbot hrc hsim replies r hr_rest hres hhr
    have hmk := collect_complete h2 msg hmem hbot hrc (by omega) replies r hr_rest hres hhr
    rw [hsim] at hmk
    exact hmk

/-- C3: the returned list is sorted descending by score (`keyDesc
QAMatch.score` orders later elements below earlier ones), has length at
most `top_n`, and equal-score candidates keep their history-iteration
order: for every score `s` the returned entries of score `s` are a prefix
of the candidate-list entries of score `s`, in the same order. -/
theorem claim_C3 : ∀ (env : Env) (cache : Cache) (channel_id question : String)
    (top_n min_overlap : Nat) (out : List QAMatch),
    find_similar_qa_pairs env cache channel_id question top_n min_overlap = .ok out →
    out.Pairwise (keyDesc QAMatch.score) ∧
    out.length ≤ top_n ∧
    (∀ history candidates,
      resolved_history env cache channel_id = .ok history →
      collect_candidates env channel_id question min_overlap
        (resolved_threads cache channel_id) history = .ok candidates →
      ∀ s, out.filter (fun qa => qa.score == s) <+:
        candidates.filter (fun qa => qa.score == s)) := by
  intro env cache channel_id question top_n min_overlap out hout
  obtain ⟨history, candidates, h1, h2, h3⟩ := find_similar_spec hout
  subst h3
  refine ⟨?_, ?_, ?_⟩
  · exact (List.sorted_insertionSort _ candidates).sublist (List.take_sublist _ _)
  · rw [List.length_take]
    exact min_le_left _ _
  · intro history' candidates' h1' h2' s
    rw [h1] at h1'
    injection h1' with h1'
    subst h1'
    rw [h2] at h2'
    injection h2' with h2'
    subst h2'
    have hp := (List.take_prefix top_n
      (candidates.insertionSort (keyDesc QAMatch.score))).filter
      (fun qa => qa.score == s)
    rwa [filter_insertionSort_key] at hp

/-- C4: every returned QAMatch is sourced from some history message that
is non-bot (`bot_id` falsy and subtype not `bot_message`) and started a
thread (`reply_count > 0`); its question is that message's text, and its
answer is the text of the *first* reply that is neither the starting
message itself nor bot-authored (`human_replies` head).  A candidate
thread with no such human reply contributes nothing, and later human
replies are never the answer. -/
theorem claim_C4 : ∀ (env : Env) (cache : Cache) (channel_id question : String)
    (top_n min_overlap : Nat) (out : List QAMatch),
    find_similar_qa_pairs env cache channel_id question top_n min_overlap = .ok out →
    ∀ qa ∈ out, ∃ history,
      resolved_history env cache channel_id = .ok history ∧
      ∃ msg, msg ∈ history ∧ isBotMessage msg = false ∧ 0 < msg.reply_count ∧
        qa.question = msg.text ∧ qa.score = _similarity question msg.text ∧
        ∃ replies r hr_rest,
          resolveReplies env channel_id (resolved_threads cache channel_id) msg.ts =
            .ok replies ∧
          human_replies msg replies = r :: hr_rest ∧
          qa.answer = r.text := by
  intro env cache channel_id question top_n min_overlap out hout qa hqa
  obtain ⟨history, candidates, h1, h2, h3⟩ := find_similar_spec hout
  subst h3
  have hqa' : qa ∈ candidates :=
    (List.mem_insertionSort _).mp (List.mem_of_mem_take hqa)
  obtain ⟨m, hm, hbot, hrc, _, hq, hs, replies, r, rest, hres, hhr, hans⟩ :=
    collect_sound h2 qa hqa'
  exact ⟨history, h1, m, hm, hbot, hrc, hq, hs, replies, r, rest, hres, hhr, hans⟩


/-! ### Cache-refresh lemmas (claims C6 and C8) -/


theorem refresh_single_error (env : Env) (now : Nat) {channel_id : String}
    (h : env.fetch_channel_history channel_id = .error ()) :
    _refresh_single_channel env channel_id now = .error () := by
  unfold _refresh_single_channel
  rw [h]

theorem refresh_cache_error (env : Env) (now : Nat) {channel_id : String}
    (h : env.fetch_channel_history channel_id = .error ()) :
    ∀ (l : List String) (cache : Cache),
      refresh_cache env l now cache channel_id = cache channel_id := by
  intro l
  induction l with
  | nil => intro cache; rfl
  | cons c rest ih =>
    intro cache
    have hstep : refresh_step env now cache c channel_id = cache channel_id := by
      unfold refresh_step
      cases hr : _refresh_single_channel env c now with
      | error e => rfl
      | ok entry =>
        dsimp only
        by_cases hc : channel_id = c
        · subst hc
          rw [refresh_single_error env now h] at hr
          simp at hr
        · rw [if_neg hc]
    calc refresh_cache env (c :: rest) now cache channel_id
        = refresh_cache env rest now (refresh_step env now cache c) channel_id := rfl
      _ = (refresh_step env now cache c) channel_id := ih _
      _ = cache channel_id := hstep

theorem refresh_cache_not_mem (env : Env) (now : Nat) :
    ∀ (l : List String) (cache : Cache) (ch : String), ch ∉ l →
      refresh_cache env l now cache ch = cache ch := by
  intro l
  induction l with
  | nil => intro cache ch _; rfl
  | cons c rest ih =>
    intro cache ch hnm
    have hne : ch ≠ c := fun he => hnm (he ▸ List.mem_cons_self c rest)
    have hnr : ch ∉ rest := fun hr => hnm (List.mem_cons_of_mem _ hr)
    have hstep : refresh_step env now cache c ch = cache ch := by
      unfold refresh_step
      cases hr : _refresh_single_channel env c now with
      | error e => rfl
      | ok entry => dsimp only; rw [if_neg hne]
    calc refresh_cache env (c :: rest) now cache ch
        = refresh_cache env rest now (refresh_step env now cache c) ch := rfl
      _ = (refresh_step env now cache c) ch := ih _ ch hnr
      _ = cache ch := hstep

theorem refresh_cache_ok (env : Env) (now : Nat) :
    ∀ (l : List String) (cache : Cache) (ch : String) (entry : CacheEntry),
      ch ∈ l → _refresh_single_channel env ch now = .ok entry →
      refresh_cache env l now cache ch = some entry := by
  intro l
  induction l with
  | nil => intro cache ch entry hm; simp at hm
  | cons c rest ih =>
    intro cache ch entry hm hok
    by_cases hmem : ch ∈ rest
    · exact ih (refresh_step env now cache c) ch entry hmem hok
    · have hc : ch = c := by
        rcases List.mem_cons.mp hm with h | h
        · exact h
        · exact absurd h hmem
      subst hc
      have hstep : refresh_step env now cache ch ch = some entry := by
        unfold refresh_step
        rw [hok]
        dsimp only
        rw [if_pos rfl]
      calc refresh_cache env (ch :: rest) now cache ch
          = refresh_cache env rest now (refresh_step env now cache ch) ch := rfl
        _ = (refresh_step env now cache ch) ch := refresh_cache_not_mem env now rest _ ch hmem
        _ = some entry := hstep

theorem build_threads_error (env : Env) (channel_id : String) {t : String}
    (h : env.fetch_thread_replies channel_id t = .error ()) :
    ∀ (msgs : List Message) (acc : String → Option (List Message)),
      List.foldl (thread_step env channel_id) acc msgs t = acc t := by
  intro msgs
  induction msgs with
  | nil => intro acc; rfl
  | cons m rest ih =>
    intro acc
    have hstep : thread_step env channel_id acc m t = acc t := by
      unfold thread_step
      by_cases hrc : 0 < m.reply_count
      · rw [if_pos hrc]
        cases hr : env.fetch_thread_replies channel_id m.ts with
        | error e => rfl
        | ok replies =>
          dsimp only
          by_cases ht : t = m.ts
          · rw [← ht] at hr
            rw [h] at hr
            simp at hr
          · rw [if_neg ht]
      · rw [if_neg hrc]
    calc List.foldl (thread_step env channel_id) acc (m :: rest) t
        = List.foldl (thread_step env channel_id) (thread_step env channel_id acc m) rest t := rfl
      _ = (thread_step env channel_id acc m) t := ih _
      _ = acc t := hstep

theorem build_threads_preserve (env : Env) (channel_id : String) {t : String}
    {replies : List Message}
    (h : env.fetch_thread_replies channel_id t = .ok replies) :
    ∀ (msgs : List Message) (acc : String → Option (List Message)),
      acc t = some replies →
      List.foldl (thread_step env channel_id) acc msgs t = some replies := by
  intro msgs
  induction msgs with
  | nil => intro acc hacc; exact hacc
  | cons m rest ih =>
    intro acc hacc
    apply ih
    unfold thread_step
    by_cases hrc : 0 < m.reply_count
    · rw [if_pos hrc]
      cases hr : env.fetch_thread_replies channel_id m.ts with
      | error e => exact hacc
      | ok replies' =>
        dsimp only
        by_cases ht : t = m.ts
        · rw [← ht] at hr
          rw [h] at hr
          injection hr with hr
          rw [if_pos ht, hr]
        · rw [if_neg ht]; exact hacc
    · rw [if_neg hrc]; exact hacc

theorem build_threads_ok (env : Env) (channel_id : String) {t : String}
    {replies : List Message}
    (h : env.fetch_thread_replies channel_id t = .ok replies) :
    ∀ (msgs : List Message) (acc : String → Option (List Message)),
      (∃ m ∈ msgs, m.ts = t ∧ 0 < m.reply_count) →
      List.foldl (thread_step env channel_id) acc msgs t = some replies := by
  intro msgs
  induction msgs with
  | nil => intro acc hex; simp at hex
  | cons m rest ih =>
    intro acc hex
    obtain ⟨w, hw, hts, hrc⟩ := hex
    rcases List.mem_cons.mp hw with rfl | hw'
    · apply build_threads_preserve env channel_id h rest
      unfold thread_step
      rw [if_pos hrc, hts, h]
      dsimp only
      simp
    · exact ih _ ⟨w, hw', hts, hrc⟩

theorem stores_sound (env : Env) (now : Nat) :
    ∀ {l : List String} {op : String × CacheEntry},
      op ∈ refresh_stores env l now →
      _refresh_single_channel env op.1 now = .ok op.2 := by
  intro l op hop
  unfold refresh_stores at hop
  obtain ⟨ch, hch, hmk⟩ := List.mem_filterMap.mp hop
  cases hr : _refresh_single_channel env ch now with
  | error e => rw [hr] at hmk; simp at hmk
  | ok entry =>
    rw [hr] at hmk
    dsimp only at hmk
    injection hmk with hmk
    subst hmk
    exact hr

theorem apply_stores_cases (env : Env) (now : Nat) :
    ∀ (ops : List (String × CacheEntry)) (cache : Cache) (ch : String),
      (∀ op ∈ ops, _refresh_single_channel env op.1 now = .ok op.2) →
      apply_stores cache ops ch = cache ch ∨
        ∃ entry, _refresh_single_channel env ch now = .ok entry ∧
          apply_stores cache ops ch = some entry := by
  intro ops
  induction ops with
  | nil => intro cache ch _; left; rfl
  | cons op rest ih =>
    intro cache ch hsound
    have hrest : ∀ o ∈ rest, _refresh_single_channel env o.1 now = .ok o.2 :=
      fun o ho => hsound o (List.mem_cons_of_mem _ ho)
    rcases ih (store_step cache op) ch hrest with hsame | ⟨entry, he, hv⟩
    · by_cases hc : ch = op.1
      · right
        refine ⟨op.2, ?_, ?_⟩
        · rw [hc]; exact hsound op (List.mem_cons_self _ _)
        · calc apply_stores cache (op :: rest) ch
              = apply_stores (store_step cache op) rest ch := rfl
            _ = (store_step cache op) ch := hsame
            _ = some op.2 := by unfold store_step; rw [if_pos hc]
      · left
        calc apply_stores cache (op :: rest) ch
            = apply_stores (store_step cache op) rest ch := rfl
          _ = (store_step cache op) ch := hsame
          _ = cache ch := by unfold store_step; rw [if_neg hc]
    · right; exact ⟨entry, he, hv⟩

theorem refresh_eq_stores (env : Env) (now : Nat) :
    ∀ (l : List String) (cache : Cache) (ch : String),
      refresh_cache env l now cache ch =
        apply_stores cache (refresh_stores env l now) ch := by
  intro l
  induction l with
  | nil => intro cache ch; rfl
  | cons c rest ih =>
    intro cache ch
    cases hr : _refresh_single_channel env c now with
    | ok entry =>
      have h2 : refresh_stores env (c :: rest) now =
          (c, entry) :: refresh_stores env rest now := by
        unfold refresh_stores
        rw [List.filterMap_cons, hr]
      have h3 : refresh_step env now cache c = store_step cache (c, entry) := by
        unfold refresh_step store_step
        rw [hr]
      calc refresh_cache env (c :: rest) now cache ch
          = refresh_cache env rest now (refresh_step env now cache c) ch := rfl
        _ = apply_stores (refresh_step env now cache c)
              (refresh_stores env rest now) ch := ih _ ch
        _ = apply_stores (store_step cache (c, entry))
              (refresh_stores env rest now) ch := by rw [h3]
        _ = apply_stores cache (refresh_stores env (c :: rest) now) ch := by
              rw [h2]; rfl
    | error e =>
      have h2 : refresh_stores env (c :: rest) now = refresh_stores env rest now := by
        unfold refresh_stores
        rw [List.filterMap_cons, hr]
      have h3 : refresh_step env now cache c = cache := by
        unfold refresh_step
        rw [hr]
      calc refresh_cache env (c :: rest) now cache ch
          = refresh_cache env rest now (refresh_step env now cache c) ch := rfl
        _ = refresh_cache env rest now cache ch := by rw [h3]
        _ = apply_stores cache (refresh_stores env rest now) ch := ih cache ch
        _ = apply_stores cache (refresh_stores env (c :: rest) now) ch := by rw [h2]

end Slackbot

namespace Slackbot

/-- C6: if refreshing one channel fails (its whole-channel fetch raises),
`refresh_cache` leaves that channel's previous cache value (if any)
unchanged, while every other listed channel whose refresh succeeds gets
its complete new entry; and within one channel's refresh, a failed
per-thread fetch only omits that thread's key from the new entry's
`threads` mapping — the refresh still succeeds with the full message
list, and threads whose fetch succeeds are present. -/
theorem claim_C6 : ∀ (env : Env) (source_channels : List String) (now : Nat)
    (cache : Cache) (channel_id : String),
    (env.fetch_channel_history channel_id = .error () →
      refresh_cache env source_channels now cache channel_id = cache channel_id) ∧
    (∀ ch entry, ch ∈ source_channels →
      _refresh_single_channel env ch now = .ok entry →
      refresh_cache env source_channels now cache ch = some entry) ∧
    (∀ messages, env.fetch_channel_history channel_id = .ok messages →
      _refresh_single_channel env channel_id now =
        .ok ⟨messages, build_threads env channel_id messages, now⟩ ∧
      (∀ t, env.fetch_thread_replies channel_id t = .error () →
        build_threads env channel_id messages t = none) ∧
      (∀ t replies, env.fetch_thread_replies channel_id t = .ok replies →
        (∃ m ∈ messages, m.ts = t ∧ 0 < m.reply_count) →
        build_threads env channel_id messages t = some replies)) := by
  intro env source_channels now cache channel_id
  refine ⟨?_, ?_, ?_⟩
  · intro h
    exact refresh_cache_error env now h source_channels cache
  · intro ch entry hm hok
    exact refresh_cache_ok env now source_channels cache ch entry hm hok
  · intro messages hmsg
    refine ⟨?_, ?_, ?_⟩
    · unfold _refresh_single_channel
      rw [hmsg]
    · intro t ht
      exact build_threads_error env channel_id ht messages _
    · intro t replies hr hex
      exact build_threads_ok env channel_id hr messages _ hex

/-- C8: cache replacement is wholesale.  The only cache mutations a
refresh performs are the atomic per-channel dict stores `refresh_stores`,
each carrying a completely built entry; a reader observing the cache
after any prefix `ops1` of those stores sees, for every channel, either
the pre-refresh value or the complete `_refresh_single_channel` result —
never an entry mixing `messages` of one fetch with `threads` of another.
The full refresh equals applying all stores in order. -/
theorem claim_C8 : ∀ (env : Env) (source_channels : List String) (now : Nat)
    (cache : Cache) (ops1 ops2 : List (String × CacheEntry)) (channel_id : String),
    refresh_stores env source_channels now = ops1 ++ ops2 →
    (apply_stores cache ops1 channel_id = cache channel_id ∨
      ∃ entry, _refresh_single_channel env channel_id now = .ok entry ∧
        apply_stores cache ops1 channel_id = some entry) ∧
    refresh_cache env source_channels now cache channel_id =
      apply_stores cache (refresh_stores env source_channels now) channel_id := by
  intro env source_channels now cache ops1 ops2 channel_id hsplit
  constructor
  · apply apply_stores_cases env now ops1 cache channel_id
    intro op hop
    apply stores_sound env now
    rw [hsplit]
    exact List.mem_append_left _ hop
  · exact refresh_eq_stores env now source_channels cache channel_id


set_option maxRecDepth 100000
set_option maxHeartbeats 1000000


/-! ### Claim C5: knowledge-base lookup -/

/-- C5: `get_relevant_knowledge` returns the empty string (not an error)
for a domain that is not a key of the knowledge base or when no topic has
positive overlap; every zero-overlap topic is excluded from the collected
matches; every collected match has positive overlap equal to the overlap
of its own topic name and body with the question; matches are
stable-sorted descending by overlap (ties keep insertion order, shown by
the per-score filter equality) and rendered as `### topic` sections
joined by blank lines.  Concretely, domain "finance" with question "what
is the mileage rate for my car" yields the mileage_rates section (overlap
2) followed by car_hire (overlap 1), and domain "nonexistent" yields "". -/
theorem claim_C5 :
    (∀ domain question, KNOWLEDGE_BASE.lookup domain = none →
      get_relevant_knowledge domain question = "") ∧
    (∀ domain question topics, KNOWLEDGE_BASE.lookup domain = some topics →
      kb_matches (_tokenise question) topics = [] →
      get_relevant_knowledge domain question = "") ∧
    (∀ (q_tokens : Finset String) (topics : List (String × String)) t c,
      (t, c) ∈ topics → kb_q_overlap q_tokens t c = 0 →
      ∀ ov, (ov, t, c) ∉ kb_matches q_tokens topics) ∧
    (∀ (q_tokens : Finset String) (topics : List (String × String)) m,
      m ∈ kb_matches q_tokens topics →
      0 < m.1 ∧ m.1 = kb_q_overlap q_tokens m.2.1 m.2.2 ∧ (m.2.1, m.2.2) ∈ topics) ∧
    (∀ (q_tokens : Finset String) (topics : List (String × String)),
      ((kb_matches q_tokens topics).insertionSort
          (keyDesc fun m => m.1)).Pairwise
        (keyDesc fun m : Nat × String × String => m.1)) ∧
    (∀ (q_tokens : Finset String) (topics : List (String × String)) (s : Nat),
      ((kb_matches q_tokens topics).insertionSort (keyDesc fun m => m.1)).filter
          (fun m => m.1 == s) =
        (kb_matches q_tokens topics).filter (fun m => m.1 == s)) ∧
    (∀ domain question topics, KNOWLEDGE_BASE.lookup domain = some topics →
      topics ≠ [] → kb_matches (_tokenise question) topics ≠ [] →
      get_relevant_knowledge domain question =
        String.intercalate "\n\n"
          (((kb_matches (_tokenise question) topics).insertionSort
              (keyDesc fun m => m.1)).map
            (fun m => "### " ++ m.2.1 ++ "\n" ++ m.2.2))) ∧
    get_relevant_knowledge "nonexistent" "what is the mileage rate for my car" = "" ∧
    get_relevant_knowledge "finance" "what is the mileage rate for my car" =
      "### mileage_rates\n" ++ kb_mileage_rates_body ++
        "\n\n### car_hire\n" ++ kb_car_hire_body := by
  refine ⟨?_, ?_, ?_, ?_, ?_, ?_, ?_, by decide, by decide⟩
  · intro domain question h
    simp [get_relevant_knowledge, h]
  · intro domain question topics h hm
    simp [get_relevant_knowledge, h, hm]
  · intro q_tokens topics t c hmem hov ov hin
    simp only [kb_matches] at hin
    obtain ⟨tc, htc, hmk⟩ := List.mem_filterMap.mp hin
    by_cases hpos : 0 < kb_q_overlap q_tokens tc.1 tc.2
    · rw [if_pos hpos] at hmk
      injection hmk with hmk
      rw [Prod.mk.injEq, Prod.mk.injEq] at hmk
      obtain ⟨hov', ht', hc'⟩ := hmk
      rw [← ht', ← hc'] at hov
      omega
    · rw [if_neg hpos] at hmk
      simp at hmk
  · intro q_tokens topics m hin
    simp only [kb_matches] at hin
    obtain ⟨tc, htc, hmk⟩ := List.mem_filterMap.mp hin
    by_cases hpos : 0 < kb_q_overlap q_tokens tc.1 tc.2
    · rw [if_pos hpos] at hmk
      injection hmk with hmk
      subst hmk
      exact ⟨hpos, rfl, htc⟩
    · rw [if_neg hpos] at hmk
      simp at hmk
  · intro q_tokens topics
    exact List.sorted_insertionSort _ _
  · intro q_tokens topics s
    exact filter_insertionSort_key _ s _
  · intro domain question topics h ht hm
    have ht' : topics.isEmpty = false := by
      cases topics
      · exact absurd rfl ht
      · rfl
    have hm' : (kb_matches (_tokenise question) topics).isEmpty = false := by
      cases hmm : kb_matches (_tokenise question) topics
      · exact absurd hmm hm
      · rfl
    simp [get_relevant_knowledge, h, ht', hm']


/-! ### Concrete fixtures and witnesses -/


/-- Fixture: an environment whose live fetches always fail, used to show
that the scenarios below never reach the network. -/
def envFail : Env := ⟨fun _ => .error (), fun _ _ => .error ()⟩

/-- Fixture for claim C1: the thread-starting message of the claim. -/
def starterC1 : Message := ⟨"1", "How do I expense a taxi?", none, none, 1⟩

/-- Fixture for claim C1: the single human reply of the claim. -/
def replyC1 : Message := ⟨"2", "Use Navan, taxis need a receipt.", none, none, 0⟩

/-- Fixture for claim C1: the cache entry holding exactly that one thread
(the thread reply list includes the starter, as Slack returns it). -/
def entryC1 : CacheEntry :=
  ⟨[starterC1], fun t => if t = "1" then some [starterC1, replyC1] else none, 0⟩

/-- Fixture for claim C1: a cache with that entry for channel "C1CH". -/
def cacheC1 : Cache := fun ch => if ch = "C1CH" then some entryC1 else none

/-! ### Claim C1: the end-to-end taxi example (corrected) -/

/-- C1 counterexample: with the exact cached channel of the claim and the
claim's defaults top_n = 3, min_overlap = 3, `find_similar_qa_pairs`
returns no matches at all, refuting the claimed single-QAMatch result:
the question and the starter share only the 2 non-stopword tokens
"expense" and "taxi" ("can", "i", "a", "how", "do" are stopwords), which
is below the threshold. -/
theorem claim_C1_counterexample :
    find_similar_qa_pairs envFail cacheC1 "C1CH" "Can I expense a taxi receipt?" 3 3 =
      .ok [] ∧
    _similarity "Can I expense a taxi receipt?" "How do I expense a taxi?" = 2 :=
  ⟨by decide, by decide⟩

/-- C1 as amended: for that cached channel and question, with the default
min_overlap = 3 the result is empty (the keyword overlap is only 2); with
min_overlap = 2 the call returns exactly one QAMatch whose question is
the starting message's text and whose answer is that reply's text. -/
theorem claim_C1 :
    find_similar_qa_pairs envFail cacheC1 "C1CH" "Can I expense a taxi receipt?" 3 3 =
      .ok [] ∧
    find_similar_qa_pairs envFail cacheC1 "C1CH" "Can I expense a taxi receipt?" 3 2 =
      .ok [⟨"How do I expense a taxi?", "Use Navan, taxis need a receipt.", 2⟩] :=
  ⟨by decide, by decide⟩

end Slackbot

namespace Slackbot

/-- Fixture: a question with five distinct non-stopword tokens. -/
def qW : String := "a1 a2 a3 a4 a5"

/-- Fixture: a thread starter sharing 2 tokens with `qW`. -/
def startW1 : Message := ⟨"1", "a1 a2", none, none, 1⟩

/-- Fixture: a thread starter sharing 5 tokens with `qW`. -/
def startW2 : Message := ⟨"2", "a1 a2 a3 a4 a5", none, none, 1⟩

/-- Fixture: a thread starter sharing 3 tokens with `qW`. -/
def startW3 : Message := ⟨"3", "a1 a2 a3", none, none, 1⟩

/-- Fixture: the human reply of the first witness thread. -/
def replW1 : Message := ⟨"11", "r1", none, none, 0⟩

/-- Fixture: the human reply of the second witness thread. -/
def replW2 : Message := ⟨"12", "r2", none, none, 0⟩

/-- Fixture: the human reply of the third witness thread. -/
def replW3 : Message := ⟨"13", "r3", none, none, 0⟩

/-- Fixture: a cache entry with the three witness threads. -/
def entryW : CacheEntry :=
  ⟨[startW1, startW2, startW3],
   fun t => if t = "1" then some [startW1, replW1]
            else if t = "2" then some [startW2, replW2]
            else if t = "3" then some [startW3, replW3] else none, 0⟩

/-- Fixture: a cache holding `entryW` for channel "W". -/
def cacheW : Cache := fun ch => if ch = "W" then some entryW else none

/-- The candidate list the retrieval builds in the witness scenario, in
history order (scores [2, 5, 3]). -/
def candsW : List QAMatch :=
  [⟨"a1 a2", "r1", 2⟩, ⟨"a1 a2 a3 a4 a5", "r2", 5⟩, ⟨"a1 a2 a3", "r3", 3⟩]

/-- The list the retrieval returns in the witness scenario (sorted
descending [5, 3, 2], truncated to top_n = 3). -/
def outW : List QAMatch :=
  [⟨"a1 a2 a3 a4 a5", "r2", 5⟩, ⟨"a1 a2 a3", "r3", 3⟩, ⟨"a1 a2", "r1", 2⟩]

/-- Witness for C2 at the concrete scenario: the overlap-2 message is in
the candidate list when min_overlap is exactly 2. -/
theorem claim_C2_witness : (⟨"a1 a2", "r1", 2⟩ : QAMatch) ∈ candsW :=
  (claim_C2 envFail cacheW "W" qW 3 2 startW1 outW (by decide)).2
    [startW1, startW2, startW3] candsW (by decide) (by decide) (by decide)
    (by decide) (by decide) (by decide) [startW1, replW1] replW1 []
    (by decide) (by decide)

/-- Witness for C3 at the concrete scenario: scores [2,5,3] come back
[5,3,2], at most 3 entries, with per-score stability. -/
theorem claim_C3_witness :
    outW.Pairwise (keyDesc QAMatch.score) ∧ outW.length ≤ 3 ∧
    outW.filter (fun qa => qa.score == 3) <+: candsW.filter (fun qa => qa.score == 3) :=
  ⟨(claim_C3 envFail cacheW "W" qW 3 2 outW (by decide)).1,
   (claim_C3 envFail cacheW "W" qW 3 2 outW (by decide)).2.1,
   (claim_C3 envFail cacheW "W" qW 3 2 outW (by decide)).2.2
     [startW1, startW2, startW3] candsW (by decide) (by decide) 3⟩

/-- Witness for C4 at the concrete scenario, for the top returned match. -/
theorem claim_C4_witness :
    ∃ history, resolved_history envFail cacheW "W" = .ok history ∧
      ∃ msg, msg ∈ history ∧ isBotMessage msg = false ∧ 0 < msg.reply_count ∧
        (⟨"a1 a2 a3 a4 a5", "r2", 5⟩ : QAMatch).question = msg.text ∧
        (⟨"a1 a2 a3 a4 a5", "r2", 5⟩ : QAMatch).score = _similarity qW msg.text ∧
        ∃ replies r hr_rest,
          resolveReplies envFail "W" (resolved_threads cacheW "W") msg.ts =
            .ok replies ∧
          human_replies msg replies = r :: hr_rest ∧
          (⟨"a1 a2 a3 a4 a5", "r2", 5⟩ : QAMatch).answer = r.text :=
  claim_C4 envFail cacheW "W" qW 3 2 outW (by decide)
    ⟨"a1 a2 a3 a4 a5", "r2", 5⟩ (by decide)

/-- Fixture: a message with replies in channel "B". -/
def msgB : Message := ⟨"7", "hello world", none, none, 2⟩

/-- Fixture: an environment where channel "B" fetches succeed and all
others fail. -/
def envC6 : Env :=
  ⟨fun ch => if ch = "B" then .ok [msgB] else .error (),
   fun ch t => if ch = "B" && t = "7" then .ok [msgB] else .error ()⟩

/-- Fixture: the pre-refresh cache entry of channel "A". -/
def entryA : CacheEntry := ⟨[], fun _ => none, 0⟩

/-- Fixture: a cache holding `entryA` for channel "A". -/
def cacheC6 : Cache := fun ch => if ch = "A" then some entryA else none

/-- Witness for C6: channel "A"'s fetch fails, so its stale entry survives
the refresh of ["A", "B"]. -/
theorem claim_C6_witness :
    refresh_cache envC6 ["A", "B"] 5 cacheC6 "A" = cacheC6 "A" :=
  (claim_C6 envC6 ["A", "B"] 5 cacheC6 "A").1 (by decide)

/-- Fixture: the complete entry the refresh builds for channel "B". -/
def entryB : CacheEntry := ⟨[msgB], build_threads envC6 "B" [msgB], 5⟩

/-- Witness for C8: after the refresh's single store operation, channel
"A" shows either its old entry or a complete refreshed one. -/
theorem claim_C8_witness :
    apply_stores cacheC6 [("B", entryB)] "A" = cacheC6 "A" ∨
      ∃ entry, _refresh_single_channel envC6 "A" 5 = .ok entry ∧
        apply_stores cacheC6 [("B", entryB)] "A" = some entry :=
  (claim_C8 envC6 ["A", "B"] 5 cacheC6 [("B", entryB)] [] "A" (by rfl)).1

/-- Fixture: an empty cache. -/
def cacheEmpty : Cache := fun _ => none

/-- Witness for C9: after a cache-miss retrieval the entry is still absent. -/
theorem claim_C9_witness :
    (find_similar_qa_pairsS envFail cacheEmpty "X" "q" 3 3).2 "X" = none :=
  (claim_C9 envFail cacheEmpty "X" "q" 3 3).2.2 rfl

/-- Fixture: a cached-threads mapping with an empty list under key "1". -/
def threadsC10 : String → Option (List Message) := fun t => if t = "1" then some [] else none

/-- Witness for C10: an empty cached thread list triggers the live fetch. -/
theorem claim_C10_witness :
    resolveReplies envC6 "B" threadsC10 "1" = envC6.fetch_thread_replies "B" "1" :=
  (claim_C10 envC6 "B" threadsC10 "1").1 rfl

/-- Witness for C5: a domain missing from the knowledge base yields "". -/
theorem claim_C5_witness :
    get_relevant_knowledge "procurement" "mileage" = "" :=
  claim_C5.1 "procurement" "mileage" (by decide)

end Slackbot
